import Mathlib

/-!
Verification of the vitess builtin backup engine (`go/vt/mysqlctl/builtinbackupengine.go`,
provided as `src/unnamed/part_000`) and the tabletserver health streamer
(`src/go/vt/vttablet/tabletserver/health_streamer.go`).

The Go code is shallowly embedded: every external call (mysqld RPCs, storage I/O,
semaphore acquisition, context state) is an input drawn from an explicit environment
record, and each Go function becomes a pure Lean function from that environment to
its observable results (returned error, usable flag, the trace of copy/manifest
events, the mysqld process state, broadcast messages, ...). Goroutine fan-out with a
`sync.WaitGroup` barrier is modelled by running the tasks in spawn order; the
per-task bodies and the barrier-then-manifest sequencing are taken verbatim from the
source.
-/

namespace Vitess

/-- vtrpc error codes (`vtrpc.Code`) appearing in the modelled code. -/
inductive Code where
  | ok
  | canceled
  | unknown
  | internal
  | failedPrecondition
  | notFound
  | unavailable
  | resourceExhausted
  | unimplemented
deriving DecidableEq, Repr

/-- Errors.  `vt` is a `vterrors` error carrying a vtrpc code; `wrap` is
`vterrors.Wrap(f)` which keeps the code of the wrapped error and prefixes a message;
`unsupportedDeCompressionEngine` is the plain sentinel error
`errUnsupportedDeCompressionEngine` wrapped by `fmt.Errorf("%w value: %q", ...)`
(a non-vterrors error, so its code is UNKNOWN). -/
inductive Err where
  | vt (code : Code) (msg : String)
  | unsupportedDeCompressionEngine (value : String)
  | wrap (msg : String) (inner : Err)
deriving DecidableEq, Repr

/-- The vtrpc code of an error: `vterrors.Wrap` preserves the inner code, and a
non-vterrors error (the sentinel) reports UNKNOWN. -/
def Err.code : Err → Code
  | .vt c _ => c
  | .unsupportedDeCompressionEngine _ => Code.unknown
  | .wrap _ e => e.code

/-- GTID flavors distinguished by `mysql.Position` (spec section 4.A). -/
inductive Flavor where
  | mysql56
  | mariadb
  | filePos
deriving DecidableEq, Repr

/-- `mysql.Position`: `gtidSet = none` models a nil `GTIDSet` (the zero position);
otherwise the set's flavor together with its canonical encoding. -/
structure Position where
  gtidSet : Option (Flavor × String)
deriving DecidableEq, Repr

/-- `mysql.Position{}` (the zero position). -/
def emptyPosition : Position := ⟨none⟩

/-- `pos.IsZero()`: true iff the GTIDSet is nil. -/
def Position.isZero (p : Position) : Bool := p.gtidSet = none

/-- `pos.MatchesFlavor(mysql.Mysql56FlavorID)` and equally the type assertion
`pos.GTIDSet.(mysql.Mysql56GTIDSet)`: both succeed exactly when the position holds a
(non-nil) MySQL56 GTID set. -/
def Position.isMysql56 (p : Position) : Bool :=
  match p.gtidSet with
  | some (.mysql56, _) => true
  | _ => false

/-! ## backupPipe (source lines 638-719)

The fields relevant to `Close` are the CAS flag `closed`, the `done` channel, and
the buffered writer `w` (nil for pipes built by `newBackupReader`).  `flushCount`
counts invocations of `bp.w.Flush()` so that "flushes only on the first call" is
observable.  The flush outcome is an input (`flushErr`). -/

structure BackupPipe where
  isWriter : Bool
  closed : Bool
  doneClosed : Bool
  flushCount : Nat
deriving DecidableEq, Repr

/-- `newBackupWriter` (only the `Close`-relevant state). -/
def newBackupWriter : BackupPipe := ⟨true, false, false, 0⟩

/-- `newBackupReader` (only the `Close`-relevant state; `w` is nil). -/
def newBackupReader : BackupPipe := ⟨false, false, false, 0⟩

/-- `backupPipe.Close` (source lines 685-695): on a successful CAS of `closed` from
0 to 1, close the `done` channel and, when `w` is non-nil, flush it and return the
flush error; otherwise return nil without touching anything. -/
def BackupPipe.closePipe (bp : BackupPipe) (flushErr : Option Err) :
    Option Err × BackupPipe :=
  if bp.closed = false then
    let bp1 : BackupPipe := { bp with closed := true, doneClosed := true }
    if bp1.isWriter then
      (flushErr, { bp1 with flushCount := bp1.flushCount + 1 })
    else (none, bp1)
  else (none, bp)

/-! ## Compression constants and restore-time decompressor selection

The compressor names live in `go/vt/mysqlctl/compression.go`, outside the provided
sources; their values are fixed by the spec (section 4.C names the engines
pgzip/pargzip/zstd/lz4/external) and by the manifest comments in the source. -/

def PgzipCompressor : String := "pgzip"
def PargzipCompressor : String := "pargzip"
def ExternalCompressor : String := "external"

/-- `FileEntry` (source lines 123-141): the fields the claims touch are the name
and the recorded hash; `Base`/`ParentPath` only locate the file on disk. -/
structure FileEntry where
  name : String
  hash : String
deriving DecidableEq, Repr

/-- Manifest fields used by the builtin engine (`builtinBackupManifest` plus the
embedded `BackupManifest`, source lines 88-120 and 605-626).  The RFC3339
timestamps (`BackupTime`, `FinishedTime`) are wall-clock strings with no bearing on
any claim and are omitted. -/
structure Manifest where
  backupMethod : String
  position : Position
  purgedPosition : Position
  fromPosition : Position
  incremental : Bool
  serverUUID : String
  tabletAlias : String
  keyspace : String
  shard : String
  fileEntries : List FileEntry
  skipCompress : Bool
  compressionEngine : String
  externalDecompressor : String
deriving DecidableEq, Repr

/-- Which decompressor `restoreFile` constructs. -/
inductive Decompressor where
  | external (cmd : String)
  | builtin (engine : String)
deriving DecidableEq, Repr

/-- The decompressor-selection logic of `restoreFile` (source lines 1025-1049),
run only when `!bm.SkipCompress`:
an empty manifest engine falls back to pgzip; the effective external command is the
restore-time flag `--external-decompressor` or, when that is empty, the
manifest-embedded `ExternalDecompressor`; with a command present, engine
"external" selects the external decompressor (other engines stay builtin); with no
command, engine "external" is rejected with the sentinel error. -/
def chooseDecompressor (externalDecompressorCmdFlag : String) (bm : Manifest) :
    Except Err Decompressor :=
  let deCompressionEngine :=
    if bm.compressionEngine = "" then PgzipCompressor else bm.compressionEngine
  let externalDecompressorCmd :=
    if externalDecompressorCmdFlag = "" ∧ bm.externalDecompressor ≠ "" then
      bm.externalDecompressor
    else externalDecompressorCmdFlag
  if externalDecompressorCmd ≠ "" then
    if deCompressionEngine = ExternalCompressor then
      .ok (.external externalDecompressorCmd)
    else
      .ok (.builtin deCompressionEngine)
  else
    if deCompressionEngine = ExternalCompressor then
      .error (.unsupportedDeCompressionEngine ExternalCompressor)
    else
      .ok (.builtin deCompressionEngine)

/-! ## backupFiles (source lines 514-636)

The copy phase spawns one goroutine per file entry, all joined by `wg.Wait()`
before the manifest section; errors are recorded on the backup handle
(`bh.RecordError`, a no-op on nil, per the `concurrency.ErrorRecorder` contract and
spec section 4.B).  We run the task bodies in spawn order, which realizes one
schedule of the concurrent loop; the error list plays the role of the handle's
recorder, so `bh.HasErrors()` is "the list is non-empty". -/

/-- The process-wide compression configuration read by `backupFiles` and
`backupFile` (`backupStorageCompress`, `CompressionEngineName`,
`ManifestExternalDecompressorCmd`; the latter two live in `compression.go`). -/
structure BackupGlobals where
  backupStorageCompress : Bool
  compressionEngineName : String
  manifestExternalDecompressorCmd : String

/-- The `BackupParams` fields the modelled code reads. -/
structure BackupParms where
  concurrency : Nat
  tabletAlias : String
  keyspace : String
  shard : String
  incrementalFromPos : String

/-- `isIncrementalBackup(params)` (source line 157). -/
def isIncrementalBackup (p : BackupParms) : Bool := p.incrementalFromPos ≠ ""

/-- The environment of one `backupFiles` run: the outcome of every external
interaction, per task index.  `copyResult i` is the value `be.backupFile` returns
for file `i` (none = success); `acquire i` is the `sema.Acquire` outcome. -/
structure BackupFilesEnv where
  ctxCanceled : Bool
  findFiles : Except Err (List String)
  acquire : Nat → Option Err
  copyResult : Nat → Option Err
  addManifestFile : Except Err Unit
  fileHash : Nat → String
  marshalErr : Option Err
  writeErr : Option Err
  closeErr : Option Err

/-- Observable events of a `backupFiles` run, in order. -/
inductive BFEvent where
  | taskDone (i : Nat)
  | manifestWrite
deriving DecidableEq, Repr

/-- One spawned goroutine body of the copy loop (source lines 545-576): acquire
the semaphore (recording the error on failure), re-check context cancellation
(recording a CANCELED error), skip the copy when the handle already has errors,
otherwise run `be.backupFile` and record its result (nil records nothing). -/
def backupFilesTask (env : BackupFilesEnv) (errs : List Err) (i : Nat) : List Err :=
  match env.acquire i with
  | some e => errs ++ [e]
  | none =>
    if env.ctxCanceled then
      errs ++ [Err.vt .canceled "context canceled"]
    else if errs ≠ [] then
      errs
    else
      match env.copyResult i with
      | some e => errs ++ [e]
      | none => errs

/-- The handle's recorded errors after all copy goroutines have joined. -/
def copyPhaseErrors (env : BackupFilesEnv) (n : Nat) : List Err :=
  (List.range n).foldl (backupFilesTask env) []

/-- The `builtinBackupManifest` value built at source lines 605-626. -/
def buildManifest (g : BackupGlobals) (p : BackupParms)
    (replicationPosition purgedPosition fromPosition : Position)
    (serverUUID : String) (fes : List String) (env : BackupFilesEnv) : Manifest :=
  { backupMethod := "builtin"
    position := replicationPosition
    purgedPosition := purgedPosition
    fromPosition := fromPosition
    incremental := !fromPosition.isZero
    serverUUID := serverUUID
    tabletAlias := p.tabletAlias
    keyspace := p.keyspace
    shard := p.shard
    fileEntries := fes.mapIdx fun i name => ⟨name, env.fileHash i⟩
    skipCompress := !g.backupStorageCompress
    compressionEngine := g.compressionEngineName
    externalDecompressor := g.manifestExternalDecompressorCmd }

/-- The observable outcome of `backupFiles`: its return value, the handle's
recorded errors, the event trace, and the manifest payload in case the manifest
`Write` call succeeded. -/
structure BFResult where
  err : Option Err
  handleErrors : List Err
  trace : List BFEvent
  manifest : Option Manifest
deriving DecidableEq, Repr

/-- `backupFiles` (source lines 514-636): enumerate the files, run the copy
goroutines to completion (`wg.Wait()`), return the handle's consolidated error if
any was recorded, then open the MANIFEST sink, JSON-encode and write the manifest,
with the deferred `wc.Close()` error assigned to the result only when the result is
still nil.  `bh.Error()` consolidates the recorded errors; per spec section 7
("first error wins in the final return value") it is the first recorded error. -/
def backupFiles (g : BackupGlobals) (p : BackupParms)
    (replicationPosition purgedPosition fromPosition : Position)
    (serverUUID : String) (env : BackupFilesEnv) : BFResult :=
  match env.findFiles with
  | .error e => ⟨some (.wrap "can't find files to backup" e), [], [], none⟩
  | .ok fes =>
    let n := fes.length
    let copyTrace := (List.range n).map BFEvent.taskDone
    match copyPhaseErrors env n with
    | e :: rest => ⟨some e, e :: rest, copyTrace, none⟩
    | [] =>
      match env.addManifestFile with
      | .error e => ⟨some (.wrap "cannot add MANIFEST to backup" e), [], copyTrace, none⟩
      | .ok _ =>
        let bm := buildManifest g p replicationPosition purgedPosition fromPosition
          serverUUID fes env
        let step : Option Err × Option Manifest :=
          match env.marshalErr with
          | some e => (some (.wrap "cannot JSON encode MANIFEST" e), none)
          | none =>
            match env.writeErr with
            | some e => (some (.wrap "cannot write MANIFEST" e), none)
            | none => (none, some bm)
        let finalErr : Option Err :=
          match step.1 with
          | some e => some e
          | none => env.closeErr
        ⟨finalErr, [],
          copyTrace ++ (match step.2 with | some _ => [BFEvent.manifestWrite] | none => []),
          step.2⟩

/-! ## executeFullBackup (source lines 344-512)

The function is split along its own phases: the prelude (everything before the
mysqld shutdown, lines 346-428), the shutdown (lines 431-436), and the
finish (backupFiles plus the recovery steps, lines 438-511). -/

/-- Outcome of a `params.Mysqld.ReplicationStatus()` call: a status (only
`Healthy()` is read from the first call), the `mysql.ErrNotReplica` sentinel, or
another error. -/
inductive ReplStatus where
  | status (healthy : Bool)
  | errNotReplica
  | failed (e : Err)

/-- The environment of one `executeFullBackup` run: the outcome of every external
interaction in source order.  `catchupWait` abstracts the wait loop at lines
494-507, every iteration of which either returns `(usable, err)` on `ctx.Err()` or
a `ReplicationStatus()` failure, or breaks once the replica position moved: `some e`
is the error a terminating run returns out of the loop, `none` the break. -/
structure FullEnv where
  semiSyncSource : Bool
  semiSyncReplica : Bool
  disableActiveReparents : Bool
  replStatus1 : ReplStatus
  isReadOnly : Except Err Bool
  isSuperReadOnly : Except Err Bool
  setSuperReadOnlyOn : Option Err
  primaryPosition : Except Err Position
  stopReplication : Option Err
  replicaStatusAfterStop : Except Err Position
  gtidPurged : Except Err Position
  serverUUID : Except Err String
  shutdown : Option Err
  bf : BackupFilesEnv
  start : Option Err
  setSuperReadOnlyRestore : Option Err
  setSemiSync : Option Err
  startReplication : Option Err
  waitForReplicationStart : Option Err
  getPrimaryPos : Except Err Position
  catchupWait : Option Err

/-- State captured by the prelude and used by the finish. -/
structure PreludeInfo where
  replicaStartRequired : Bool
  sourceIsPrimary : Bool
  superReadOnly : Bool
  replicationPosition : Position
  gtidPurged : Position
  serverUUID : String
deriving DecidableEq, Repr

/-- The observable outcome of `executeFullBackup`.  `backupErr` is `some r` once
`backupFiles` ran and returned `r`; `mysqlRunning` tracks the mysqld process
(running at entry, down after a successful `Shutdown`, running again after a
successful `Start`); `startUsedBackgroundCtx` records that `Start` was invoked
with `context.Background()` (source line 443). -/
structure FullResult where
  usable : Bool
  err : Option Err
  backupErr : Option (Option Err)
  bf : Option BFResult
  shutdownSucceeded : Bool
  startAttempted : Bool
  startUsedBackgroundCtx : Bool
  mysqlRunning : Bool
  superReadOnlyRestoreAttempted : Bool
  semiSyncRestoreAttempted : Bool
deriving DecidableEq, Repr

/-- A `return false, err` taken before the shutdown: mysqld was never shut down. -/
def earlyFullFail (e : Err) : FullResult :=
  { usable := false
    err := some e
    backupErr := none
    bf := none
    shutdownSucceeded := false
    startAttempted := false
    startUsedBackgroundCtx := false
    mysqlRunning := true
    superReadOnlyRestoreAttempted := false
    semiSyncRestoreAttempted := false }

/-- Prelude steps after the first `ReplicationStatus()` call (source lines
371-428): read `read_only` and `super_read_only`; on a primary, enable
`super_read_only` when it was off (the deferred reset at lines 390-396 only logs
its error) and read the primary position; on a replica, stop replication and read
the replica position; then read `gtid_purged` (the duplicated `err != nil` check at
lines 421-423 is dead, the spec's section 9 note) and the server UUID. -/
def fullBackupPreludeRest (env : FullEnv)
    (replicaStartRequired sourceIsPrimary : Bool) : Except Err PreludeInfo :=
  match env.isReadOnly with
  | .error e => .error (.wrap "failed to get read_only status" e)
  | .ok _ =>
  match env.isSuperReadOnly with
  | .error e => .error (.wrap "can't get super_read_only status" e)
  | .ok superReadOnly =>
  let posRes : Except Err Position :=
    if sourceIsPrimary then
      match (if !superReadOnly then env.setSuperReadOnlyOn else none) with
      | some e => .error (.wrap "failed to enable super_read_only" e)
      | none =>
        match env.primaryPosition with
        | .error e => .error (.wrap "can't get position on primary" e)
        | .ok pos => .ok pos
    else
      match env.stopReplication with
      | some e => .error (.wrap "can't stop replica" e)
      | none =>
        match env.replicaStatusAfterStop with
        | .error e => .error (.wrap "can't get replica status" e)
        | .ok pos => .ok pos
  match posRes with
  | .error e => .error e
  | .ok replicationPosition =>
  match env.gtidPurged with
  | .error e => .error (.wrap "can't get gtid_purged" e)
  | .ok purged =>
  match env.serverUUID with
  | .error e => .error (.wrap "can't get server uuid" e)
  | .ok uuid =>
    .ok ⟨replicaStartRequired, sourceIsPrimary, superReadOnly,
      replicationPosition, purged, uuid⟩

/-- The prelude of `executeFullBackup` (source lines 346-428), starting with the
`ReplicationStatus()` switch at lines 360-369. -/
def fullBackupPrelude (env : FullEnv) : Except Err PreludeInfo :=
  match env.replStatus1 with
  | .failed e => .error (.wrap "can't get replica status" e)
  | .status healthy =>
    fullBackupPreludeRest env (healthy && !env.disableActiveReparents) false
  | .errNotReplica => fullBackupPreludeRest env false true

/-- The replica-restart block (source lines 465-509), entered only when
`replicaStartRequired`: start replication, wait for it, fetch the shard primary's
position, and when the local position did not match it run the catch-up wait loop.
Returns the error the block exits with, if any. -/
def fullBackupReplicaRestart (pre : PreludeInfo) (env : FullEnv) : Option Err :=
  if pre.replicaStartRequired then
    match env.startReplication with
    | some e => some (.wrap "cannot restart replica" e)
    | none =>
      match env.waitForReplicationStart with
      | some e => some (.wrap "replica is not restarting" e)
      | none =>
        match env.getPrimaryPos with
        | .error e => some e
        | .ok pos =>
          if pre.replicationPosition = pos then none
          else env.catchupWait
  else none

/-- The finish of `executeFullBackup` (source lines 438-511), reached after a
successful shutdown: run `backupFiles`, set `usable := backupErr == nil`, restart
mysqld with a fresh background context, and restore `super_read_only`, semi-sync
and replication; each recovery step that fails makes the function return `(usable,
its error)`, and only when all of them succeed is `backupErr` returned. -/
def fullBackupFinish (g : BackupGlobals) (p : BackupParms) (pre : PreludeInfo)
    (env : FullEnv) : FullResult :=
  let r := backupFiles g p pre.replicationPosition pre.gtidPurged emptyPosition
    pre.serverUUID env.bf
  let backupErr := r.err
  let usable := backupErr.isNone
  let mk : Bool → Bool → Bool → Option Err → FullResult := fun running sro ssr e =>
    { usable := usable
      err := e
      backupErr := some backupErr
      bf := some r
      shutdownSucceeded := true
      startAttempted := true
      startUsedBackgroundCtx := true
      mysqlRunning := running
      superReadOnlyRestoreAttempted := sro
      semiSyncRestoreAttempted := ssr }
  match env.start with
  | some e => mk false false false (some (.wrap "can't restart mysqld" e))
  | none =>
    match env.setSuperReadOnlyRestore with
    | some e => mk true true false (some e)
    | none =>
      let semiAttempted := env.semiSyncSource || env.semiSyncReplica
      match (if semiAttempted then env.setSemiSync else none) with
      | some e => mk true true semiAttempted (some e)
      | none =>
        match fullBackupReplicaRestart pre env with
        | some e => mk true true semiAttempted (some e)
        | none => mk true true semiAttempted backupErr

/-- `executeFullBackup` (source lines 344-512).  The redundant incremental guard
at lines 346-348 is omitted: `ExecuteBackup` only dispatches here when
`params.IncrementalFromPos` is empty, and the guard would forward to
`executeIncrementalBackup` otherwise (the modelled `ExecuteBackupCall` dispatches
the same way). -/
def executeFullBackup (g : BackupGlobals) (p : BackupParms) (env : FullEnv) :
    FullResult :=
  match fullBackupPrelude env with
  | .error e => earlyFullFail e
  | .ok pre =>
    match env.shutdown with
    | some e => earlyFullFail (.wrap "can't shutdown mysqld" e)
    | none => fullBackupFinish g p pre env

/-! ## executeIncrementalBackup (source lines 219-340) -/

/-- The environment of one `executeIncrementalBackup` run.  The position
arithmetic (`mysql.DecodePosition`, `mysql.ParsePosition`, `mysql.EncodePosition`)
and `ChooseBinlogsForIncrementalBackup` live outside the provided sources and are
modelled from the spec: `decodePosition`/`parsePosition` parse a string into a
flavored position or fail (spec section 4.A); `chooseBinlogs` returns the chosen
binlog files, the previous-GTIDs of the earliest chosen file, and the server
position the backup reaches (spec section 4.D.2 steps 5 and 7).
`parsePosition` is `mysql.ParsePosition(mysql.Mysql56FlavorID, s)`. -/
structure IncrEnv where
  serverUUID : Except Err String
  gtidPurged : Except Err Position
  getBackupStorage : Option Err
  listBackups : Except Err Unit
  findLatestSuccessfulBackup : Except Err Position
  encodePosition : Position → String
  decodePosition : String → Except Err Position
  flushBinaryLogs : Option Err
  getBinaryLogs : Except Err (List String)
  chooseBinlogs : Except Err (List String × String × String)
  parsePosition : String → Except Err Position
  bf : BackupFilesEnv

/-- The observable outcome of `executeIncrementalBackup`. -/
structure IncrResult where
  usable : Bool
  err : Option Err
  backupErr : Option (Option Err)
  bf : Option BFResult
deriving DecidableEq, Repr

/-- A `return false, err` before `backupFiles` runs: no file was copied. -/
def earlyIncrFail (e : Err) : IncrResult := ⟨false, some e, none, none⟩

/-- The tail of `executeIncrementalBackup` (source lines 336-339): propagate a
`backupFiles` failure as `(false, err)`, else report `(true, nil)`. -/
def incrFinish (r : BFResult) : IncrResult :=
  match r.err with
  | some e => { usable := false, err := some e, backupErr := some (some e), bf := some r }
  | none => { usable := true, err := none, backupErr := some none, bf := some r }

/-- The `params.IncrementalFromPos == autoIncrementalFromPos` block (source lines
243-264): resolve the latest successful backup and use its manifest end position,
re-encoded; otherwise the caller's string is used as is. -/
def effectiveIncrementalFromPos (p : BackupParms) (env : IncrEnv) :
    Except Err String :=
  if p.incrementalFromPos = "auto" then
    match env.getBackupStorage with
    | some e => .error e
    | none =>
      match env.listBackups with
      | .error e => .error (.wrap "ListBackups failed" e)
      | .ok _ =>
        match env.findLatestSuccessfulBackup with
        | .error e => .error (.wrap "FindLatestSuccessfulBackup failed" e)
        | .ok pos => .ok (env.encodePosition pos)
  else .ok p.incrementalFromPos

/-- `executeIncrementalBackup` (source lines 219-340): collect the server UUID and
`gtid_purged` (whose GTID set must cast to `Mysql56GTIDSet`), resolve the
from-position string, decode it and require the MySQL56 flavor (the subsequent
`Mysql56GTIDSet` type assertion at lines 275-278 cannot fail once `MatchesFlavor`
passed), flush and list the binary logs, choose the binlogs to copy, parse the
returned boundary GTID sets, and call `backupFiles` with end position
`incrementalBackupToPosition`, an empty purged position, and from-position
`incrementalBackupFromPosition`. -/
def executeIncrementalBackup (g : BackupGlobals) (p : BackupParms) (env : IncrEnv) :
    IncrResult :=
  match env.serverUUID with
  | .error e => earlyIncrFail (.wrap "can't get server uuid" e)
  | .ok serverUUID =>
  match env.gtidPurged with
  | .error e => earlyIncrFail (.wrap "can't get @@gtid_purged" e)
  | .ok purged =>
  if !purged.isMysql56 then
    earlyIncrFail (.vt .failedPrecondition "cannot get MySQL GTID purged value")
  else
  match effectiveIncrementalFromPos p env with
  | .error e => earlyIncrFail e
  | .ok fromPosStr =>
  match env.decodePosition fromPosStr with
  | .error e => earlyIncrFail (.wrap "cannot decode position in incremental backup" e)
  | .ok pos =>
  if !pos.isMysql56 then
    earlyIncrFail
      (.vt .failedPrecondition "incremental backup only supports MySQL GTID positions")
  else
  match env.flushBinaryLogs with
  | some e => earlyIncrFail (.wrap "cannot flush binary logs in incremental backup" e)
  | none =>
  match env.getBinaryLogs with
  | .error e => earlyIncrFail (.wrap "cannot get binary logs in incremental backup" e)
  | .ok _ =>
  match env.chooseBinlogs with
  | .error e =>
    earlyIncrFail (.wrap "cannot get binary logs to backup in incremental backup" e)
  | .ok (_, fromGTID, toGTID) =>
  match env.parsePosition fromGTID with
  | .error e => earlyIncrFail (.wrap "cannot parse position" e)
  | .ok fromPosition =>
  match env.parsePosition toGTID with
  | .error e => earlyIncrFail (.wrap "cannot parse position" e)
  | .ok toPosition =>
  incrFinish (backupFiles g p toPosition emptyPosition fromPosition serverUUID env.bf)

/-- What `ExecuteBackup` reports: the usable flag, the overall error, and the
`backupFiles` outcome when it ran. -/
structure ExecResult where
  usable : Bool
  err : Option Err
  backupErr : Option (Option Err)
deriving DecidableEq, Repr

/-- `ExecuteBackup` (source lines 206-214): dispatch on
`isIncrementalBackup(params)`. -/
def ExecuteBackupCall (g : BackupGlobals) (p : BackupParms) (fenv : FullEnv)
    (ienv : IncrEnv) : ExecResult :=
  if isIncrementalBackup p then
    let r := executeIncrementalBackup g p ienv
    ⟨r.usable, r.err, r.backupErr⟩
  else
    let r := executeFullBackup g p fenv
    ⟨r.usable, r.err, r.backupErr⟩

/-! ## restoreFile / restoreFiles / executeRestoreFullBackup (source lines
832-845 and 908-1097) -/

/-- The environment of one `restoreFile` run: outcomes of the storage read, the
destination open, decompressor construction, the `io.Copy`, the destination
flush, the hashing-reader close, and the two deferred closes.  `computedHash` is
`br.HashString()`: the CRC32 over the bytes read from backup storage (the hashing
reader wraps the storage stream before any decompression). -/
structure RestoreFileEnv where
  readFile : Except Err Unit
  openDest : Except Err Unit
  newDecompressor : Option Err
  copy : Option Err
  computedHash : String
  flush : Option Err
  brClose : Option Err
  destClose : Option Err
  decompressorClose : Option Err

/-- All I/O interactions of one file restore succeed (the hash comparison
aside): used to isolate the hash-mismatch behavior. -/
def RestoreFileEnv.stepsOk (env : RestoreFileEnv) : Prop :=
  env.readFile = .ok () ∧ env.openDest = .ok () ∧ env.newDecompressor = none
    ∧ env.copy = none ∧ env.flush = none ∧ env.brClose = none
    ∧ env.destClose = none ∧ env.decompressorClose = none

/-- A deferred `Close` that assigns its (wrapped) error to the result only when
the body's result is still nil (source lines 1006-1017 and 1057-1069). -/
def applyDeferClose (body : Option Err) (closeErr : Option Err) (msg : String) :
    Option Err :=
  match body with
  | some e => some e
  | none =>
    match closeErr with
    | some c => some (.wrap msg c)
    | none => none

/-- The tail of `restoreFile` after the processing chain is set up (source lines
1072-1096): copy, compare the computed hash against the manifest entry's hash
(mismatch is a `vtrpc.Code_INTERNAL` error), flush the destination buffer, close
the hashing reader. -/
def restoreFileTail (fe : FileEntry) (env : RestoreFileEnv) : Option Err :=
  match env.copy with
  | some e => some (.wrap "failed to copy file contents" e)
  | none =>
    if env.computedHash ≠ fe.hash then
      some (.vt .internal "hash mismatch")
    else
      match env.flush with
      | some e => some (.wrap "failed to flush destination buffer" e)
      | none =>
        match env.brClose with
        | some e => some (.wrap "failed to close the source reader" e)
        | none => none

/-- `restoreFile` (source lines 975-1097): open the storage source and the
destination; when the manifest says compressed, select and construct the
decompressor (`chooseDecompressor` embeds lines 1025-1049) and register its
deferred close; run the copy/hash/flush tail; the deferred decompressor close
(registered last, so applied first) and destination close merge their errors only
into a nil result. -/
def restoreFile (externalDecompressorCmdFlag : String) (bm : Manifest)
    (fe : FileEntry) (env : RestoreFileEnv) : Option Err :=
  match env.readFile with
  | .error e => some (.wrap "can't open source file for reading" e)
  | .ok _ =>
  match env.openDest with
  | .error e => some (.wrap "can't open destination file for writing" e)
  | .ok _ =>
    let withDestClose := fun r =>
      applyDeferClose r env.destClose "failed to close destination file"
    if bm.skipCompress then
      withDestClose (restoreFileTail fe env)
    else
      match chooseDecompressor externalDecompressorCmdFlag bm with
      | .error e => withDestClose (some e)
      | .ok _ =>
        match env.newDecompressor with
        | some e => withDestClose (some (.wrap "can't create decompressor" e))
        | none =>
          withDestClose (applyDeferClose (restoreFileTail fe env)
            env.decompressorClose "failed to close decompressor")

/-- The environment of one `restoreFiles` run. -/
structure RestoreFilesEnv where
  ctxCanceled : Bool
  mkdirTemp : Except Err String
  acquire : Nat → Option Err
  files : Nat → RestoreFileEnv

/-- The manifest's `i`-th file entry (`&fes[i]` in the restore loop). -/
def feAt (bm : Manifest) (i : Nat) : FileEntry := bm.fileEntries.getD i ⟨"", ""⟩

/-- One spawned goroutine body of the restore loop (source lines 933-969):
acquire the semaphore, re-check cancellation, skip when the recorder already has
errors, otherwise restore file `i` and record its wrapped error. -/
def restoreFilesTask (externalDecompressorCmdFlag : String) (bm : Manifest)
    (env : RestoreFilesEnv) (errs : List Err) (i : Nat) : List Err :=
  match env.acquire i with
  | some e => errs ++ [e]
  | none =>
    if env.ctxCanceled then
      errs ++ [Err.vt .canceled "context canceled"]
    else if errs ≠ [] then
      errs
    else
      match restoreFile externalDecompressorCmdFlag bm (feAt bm i) (env.files i) with
      | some e => errs ++ [Err.wrap "can't restore file" e]
      | none => errs

/-- The "pargzip" to "pgzip" swap at the top of `restoreFiles` (source lines
911-919; the deferred swap-back only restores the local variable). -/
def restoreEffectiveManifest (bm : Manifest) : Manifest :=
  if bm.compressionEngine = PargzipCompressor then
    { bm with compressionEngine := PgzipCompressor }
  else bm

/-- `restoreFiles` (source lines 910-973): swap the historical "pargzip" engine
for "pgzip" for the duration of the loop, create the scratch directory for an
incremental manifest, run the restore goroutines to completion, and return the
created directory together with the recorder's consolidated error (per spec
section 7 the first recorded error wins). -/
def restoreFiles (externalDecompressorCmdFlag : String) (bm : Manifest)
    (env : RestoreFilesEnv) : String × Option Err :=
  let bmEff := restoreEffectiveManifest bm
  match (if bm.incremental then env.mkdirTemp else .ok "") with
  | .error e => ("", some e)
  | .ok createdDir =>
    let errs := (List.range bmEff.fileEntries.length).foldl
      (restoreFilesTask externalDecompressorCmdFlag bmEff env) []
    (createdDir, errs.head?)

/-- The observable outcome of `executeRestoreFullBackup`: the returned error and
the files it removed. -/
structure RestoreFullResult where
  err : Option Err
  deleted : List String
deriving DecidableEq, Repr

/-- `executeRestoreFullBackup` (source lines 832-845): prepare, restore the files,
wrap a failure.  The path removes no file: the source comments "don't delete the
file here because that is how we detect an interrupted restore", so `deleted` is
empty on every run. -/
def executeRestoreFullBackup (externalDecompressorCmdFlag : String)
    (prepareToRestore : Option Err) (bm : Manifest) (env : RestoreFilesEnv) :
    RestoreFullResult :=
  match prepareToRestore with
  | some e => ⟨some e, []⟩
  | none =>
    match (restoreFiles externalDecompressorCmdFlag bm env).2 with
    | some e => ⟨some (.wrap "failed to restore files" e), []⟩
    | none => ⟨none, []⟩

/-! ## Health streamer (health_streamer.go)

Channel payloads are cloned protobuf messages whose content is irrelevant to the
delivery mechanics; they are modelled by numeric identifiers (0 = the snapshot
sent at registration, k = the k-th state change). -/

/-- A subscriber channel: capacity, queued messages in FIFO order, closed flag. -/
structure HChan where
  cap : Nat
  buf : List Nat
  closed : Bool
deriving DecidableEq, Repr

/-- The non-blocking send of `broadCastToClients` (the `select`/`default` at
source lines 265-283): enqueue when the buffer has space, otherwise report
would-block. -/
def trySend (ch : HChan) (m : Nat) : HChan × Bool :=
  if ch.buf.length < ch.cap then ({ ch with buf := ch.buf ++ [m] }, true)
  else (ch, false)

/-- `broadCastToClients` (source lines 263-285): for each client, a non-blocking
send; on would-block, close the channel and remove the client.  Returns the
retained clients and the channels that were closed. -/
def broadCastToClients (clients : List HChan) (shr : Nat) :
    List HChan × List HChan :=
  match clients with
  | [] => ([], [])
  | ch :: rest =>
    let r := broadCastToClients rest shr
    let s := trySend ch shr
    if s.2 then (s.1 :: r.1, r.2) else (r.1, { ch with closed := true } :: r.2)

/-- `register` (source lines 207-221): create a channel of capacity
`streamHealthBufferSize`, add it to the client set, and send the current state
(a blocking send on the fresh channel, which completes immediately whenever the
capacity is at least 1; the flag default is 20 and the scenario uses 2). -/
def registerClient (bufferSize : Nat) (clients : List HChan) (stateMsg : Nat) :
    List HChan × HChan :=
  let ch : HChan := { cap := bufferSize, buf := [stateMsg], closed := false }
  (clients ++ [ch], ch)

/-- The client set together with every channel closed by a broadcast so far. -/
structure HSClients where
  clients : List HChan
  closedChans : List HChan
deriving DecidableEq, Repr

/-- One `ChangeState` fan-out (the `broadCastToClients` call under the lock). -/
def hsBroadcastStep (s : HSClients) (m : Nat) : HSClients :=
  let r := broadCastToClients s.clients m
  ⟨r.1, s.closedChans ++ r.2⟩

/-- The overflow scenario: one subscriber registers (receiving the current state
as message 0), then `numChanges` state changes (messages 1, 2, ...) are broadcast
while the subscriber drains nothing. -/
def hsScenario (bufferSize : Nat) (numChanges : Nat) : HSClients :=
  let c := registerClient bufferSize [] 0
  (List.range numChanges).foldl (fun s i => hsBroadcastStep s (i + 1)) ⟨c.1, []⟩

/-! ## healthStreamer.reload (source lines 332-378) -/

/-- The environment of one `reload` run: whether the tablet is the primary, and
the outcomes of the connection-pool `Get`, `getChangedTableNames` and
`getChangedViewNames`. -/
structure ReloadEnv where
  isPrimary : Bool
  connGet : Except Err Unit
  changedTables : Except Err (List String)
  changedViews : Except Err (List String)

/-- The observable outcome of `reload`: the returned error, the
(TableSchemaChanged, ViewSchemaChanged) payload of each state broadcast to the
clients, and the final values of those two state fields (nil modelled as the
empty list, matching a nil Go slice). -/
structure ReloadResult where
  err : Option Err
  broadcasts : List (List String × List String)
  finalTableSchemaChanged : List String
  finalViewSchemaChanged : List String
deriving DecidableEq, Repr

/-- `reload` (source lines 332-378): only on the primary; get a connection; query
the changed tables; query the changed views, and on a view-query failure return
the error only when no table changed, otherwise drop the view names; when
nothing changed return nil; otherwise set the two state fields, broadcast a clone
of the state, and reset both fields to nil. -/
def reload (env : ReloadEnv) : ReloadResult :=
  if !env.isPrimary then ⟨none, [], [], []⟩
  else
    match env.connGet with
    | .error e => ⟨some e, [], [], []⟩
    | .ok _ =>
      match env.changedTables with
      | .error e => ⟨some e, [], [], []⟩
      | .ok tables =>
        match env.changedViews with
        | .error e =>
          if tables = [] then ⟨some e, [], [], []⟩
          else ⟨none, [(tables, [])], [], []⟩
        | .ok views =>
          if tables = [] ∧ views = [] then ⟨none, [], [], []⟩
          else ⟨none, [(tables, views)], [], []⟩

/-! ## Concrete sample inputs, used by witnesses and counterexamples -/

def eA : Err := .vt .unknown "disk error"
def eB : Err := .vt .unknown "start failed"
def posA : Position := ⟨some (.mysql56, "00010203-0405-0607-0809-0a0b0c0d0e0f:1-100")⟩
def posB : Position := ⟨some (.mysql56, "00010203-0405-0607-0809-0a0b0c0d0e0f:1-200")⟩

def gSample : BackupGlobals := ⟨true, "pgzip", ""⟩
def pSample : BackupParms := ⟨4, "zone-100", "ks", "-80", ""⟩
def pSampleIncr : BackupParms :=
  ⟨4, "zone-100", "ks", "-80", "00010203-0405-0607-0809-0a0b0c0d0e0f:1-100"⟩

def bfEnvOk : BackupFilesEnv :=
  { ctxCanceled := false
    findFiles := .ok ["ibdata1", "db.opt"]
    acquire := fun _ => none
    copyResult := fun _ => none
    addManifestFile := .ok ()
    fileHash := fun _ => "deadbeef"
    marshalErr := none
    writeErr := none
    closeErr := none }

def bfEnvFindFail : BackupFilesEnv := { bfEnvOk with findFiles := .error eA }

def fullEnvOk : FullEnv :=
  { semiSyncSource := false
    semiSyncReplica := false
    disableActiveReparents := false
    replStatus1 := .errNotReplica
    isReadOnly := .ok true
    isSuperReadOnly := .ok true
    setSuperReadOnlyOn := none
    primaryPosition := .ok posA
    stopReplication := none
    replicaStatusAfterStop := .ok posA
    gtidPurged := .ok posA
    serverUUID := .ok "uuid-1"
    shutdown := none
    bf := bfEnvOk
    start := none
    setSuperReadOnlyRestore := none
    setSemiSync := none
    startReplication := none
    waitForReplicationStart := none
    getPrimaryPos := .ok posA
    catchupWait := none }

def fullEnvBackupAndStartFail : FullEnv :=
  { fullEnvOk with bf := bfEnvFindFail, start := some eB }

def incrEnvOk : IncrEnv :=
  { serverUUID := .ok "uuid-1"
    gtidPurged := .ok posA
    getBackupStorage := none
    listBackups := .ok ()
    findLatestSuccessfulBackup := .ok posA
    encodePosition := fun p => match p.gtidSet with | some (_, s) => s | none => ""
    decodePosition := fun s => .ok ⟨some (.mysql56, s)⟩
    flushBinaryLogs := none
    getBinaryLogs := .ok ["binlog.000001", "binlog.000002"]
    chooseBinlogs := .ok (["binlog.000002"],
      "00010203-0405-0607-0809-0a0b0c0d0e0f:1-100",
      "00010203-0405-0607-0809-0a0b0c0d0e0f:1-200")
    parsePosition := fun s => .ok ⟨some (.mysql56, s)⟩
    bf := bfEnvOk }

def incrEnvWrongFlavor : IncrEnv :=
  { incrEnvOk with decodePosition := fun s => .ok ⟨some (.mariadb, s)⟩ }

def rfEnvGood : RestoreFileEnv :=
  { readFile := .ok ()
    openDest := .ok ()
    newDecompressor := none
    copy := none
    computedHash := "deadbeef"
    flush := none
    brClose := none
    destClose := none
    decompressorClose := none }

def rfEnvMismatch : RestoreFileEnv := { rfEnvGood with computedHash := "0badf00d" }

def bmSample : Manifest :=
  { backupMethod := "builtin"
    position := posB
    purgedPosition := emptyPosition
    fromPosition := emptyPosition
    incremental := false
    serverUUID := "uuid-1"
    tabletAlias := "zone-100"
    keyspace := "ks"
    shard := "-80"
    fileEntries := [⟨"ibdata1", "deadbeef"⟩]
    skipCompress := false
    compressionEngine := "pgzip"
    externalDecompressor := "" }

def bmExternal : Manifest := { bmSample with compressionEngine := "external" }

def restoreEnvMismatch : RestoreFilesEnv :=
  { ctxCanceled := false
    mkdirTemp := .ok ""
    acquire := fun _ => none
    files := fun _ => rfEnvMismatch }

def reloadEnvViewsFail : ReloadEnv :=
  { isPrimary := true
    connGet := .ok ()
    changedTables := .ok ["t1"]
    changedViews := .error eA }

/-! ## Theorems -/

/-- C9: `backupPipe.Close` is idempotent: the first call on a freshly created
pipe closes the done channel and, for a writer pipe, flushes the buffered writer
exactly once and returns the flush outcome (a reader pipe flushes nothing and
returns nil); and whatever the pipe's history, a second `Close` returns nil and
leaves the state untouched. -/
theorem backupPipe_close_idempotent :
    (∀ fe, (newBackupWriter.closePipe fe).1 = fe
      ∧ (newBackupWriter.closePipe fe).2.doneClosed = true
      ∧ (newBackupWriter.closePipe fe).2.flushCount = 1)
    ∧ (∀ fe, (newBackupReader.closePipe fe).1 = none
      ∧ (newBackupReader.closePipe fe).2.doneClosed = true
      ∧ (newBackupReader.closePipe fe).2.flushCount = 0)
    ∧ (∀ (bp : BackupPipe) (fe1 fe2 : Option Err),
        (bp.closePipe fe1).2.closePipe fe2 = (none, (bp.closePipe fe1).2)) := by
  refine ⟨fun fe => ⟨rfl, rfl, rfl⟩, fun fe => ⟨rfl, rfl, rfl⟩, fun bp fe1 fe2 => ?_⟩
  cases hb : bp.closed <;> cases hw : bp.isWriter <;>
    simp [BackupPipe.closePipe, hb, hw]

/-- C5: for a manifest with compression engine "external" and `SkipCompress`
false, the decompressor is the restore-time `--external-decompressor` flag when
non-empty, else the manifest-embedded `ExternalDecompressor` command when that is
non-empty, and when both are empty the selection (and hence `restoreFile`) fails
with the unsupported-decompression-engine error. -/
theorem restore_external_decompressor_selection (flag : String) (bm : Manifest)
    (heng : bm.compressionEngine = ExternalCompressor)
    (hskip : bm.skipCompress = false) :
    (flag ≠ "" → chooseDecompressor flag bm = .ok (.external flag))
    ∧ (flag = "" → bm.externalDecompressor ≠ "" →
        chooseDecompressor flag bm = .ok (.external bm.externalDecompressor))
    ∧ (flag = "" → bm.externalDecompressor = "" →
        chooseDecompressor flag bm =
          .error (.unsupportedDeCompressionEngine ExternalCompressor)
        ∧ ∀ (fe : FileEntry) (env : RestoreFileEnv),
            env.readFile = .ok () → env.openDest = .ok () →
            restoreFile flag bm fe env =
              some (.unsupportedDeCompressionEngine ExternalCompressor)) := by
  have hextne : ExternalCompressor ≠ "" := by decide
  refine ⟨fun hflag => ?_, fun hflag hman => ?_, fun hflag hman => ?_⟩
  · simp [chooseDecompressor, heng, hextne, hflag]
  · simp [chooseDecompressor, heng, hextne, hflag, hman]
  · have hch : chooseDecompressor flag bm =
        .error (.unsupportedDeCompressionEngine ExternalCompressor) := by
      simp [chooseDecompressor, heng, hextne, hflag, hman]
    refine ⟨hch, fun fe env hr ho => ?_⟩
    simp [restoreFile, hr, ho, hskip, hch, applyDeferClose]

/-- C5 witness: with engine "external", both the flag and the manifest command
empty, and the storage read and destination open succeeding, `restoreFile`
returns the unsupported-decompression-engine error. -/
theorem restore_external_decompressor_selection_witness :
    bmExternal.compressionEngine = ExternalCompressor
    ∧ bmExternal.skipCompress = false
    ∧ restoreFile "" bmExternal ⟨"ibdata1", "deadbeef"⟩ rfEnvGood =
        some (.unsupportedDeCompressionEngine ExternalCompressor) := by
  refine ⟨rfl, rfl, ?_⟩
  exact ((restore_external_decompressor_selection "" bmExternal rfl rfl).2.2
    rfl rfl).2 ⟨"ibdata1", "deadbeef"⟩ rfEnvGood rfl rfl

/-- C10: in `healthStreamer.reload`, when the changed-table query returns a
non-empty list and the changed-view query fails, the error is not returned: one
state carrying the changed tables and no view names is broadcast, and both state
fields end up nil; when no table changed, the view-query error is returned and
nothing is broadcast. -/
theorem reload_view_error_with_changed_tables (env : ReloadEnv)
    (tables : List String) (e : Err)
    (hp : env.isPrimary = true) (hc : env.connGet = .ok ())
    (ht : env.changedTables = .ok tables)
    (hv : env.changedViews = .error e) :
    (tables ≠ [] → reload env = ⟨none, [(tables, [])], [], []⟩)
    ∧ (tables = [] → reload env = ⟨some e, [], [], []⟩) := by
  constructor
  · intro hne
    simp [reload, hp, hc, ht, hv, hne]
  · intro hnil
    simp [reload, hp, hc, ht, hv, hnil]

/-- C10 witness: on the primary, with changed table `t1` and a failing view
query, `reload` returns nil and broadcasts the table change with no view names. -/
theorem reload_view_error_with_changed_tables_witness :
    reload reloadEnvViewsFail = ⟨none, [(["t1"], [])], [], []⟩ :=
  (reload_view_error_with_changed_tables reloadEnvViewsFail ["t1"] eA
    rfl rfl rfl rfl).1 (by decide)

/-- C8: when `backupFiles` reaches the manifest section, the deferred
`wc.Close()` error becomes the returned error exactly when every preceding step
returned nil; a non-nil marshal or write error is never replaced by the Close
error. -/
theorem manifest_close_error_composition
    (g : BackupGlobals) (p : BackupParms)
    (rp pp fp : Position) (uuid : String) (env : BackupFilesEnv)
    (fes : List String)
    (hf : env.findFiles = .ok fes)
    (hc : copyPhaseErrors env fes.length = [])
    (ha : env.addManifestFile = .ok ()) :
    (env.marshalErr = none → env.writeErr = none →
      (backupFiles g p rp pp fp uuid env).err = env.closeErr)
    ∧ (∀ e, env.marshalErr = some e →
      (backupFiles g p rp pp fp uuid env).err =
        some (.wrap "cannot JSON encode MANIFEST" e))
    ∧ (∀ e, env.marshalErr = none → env.writeErr = some e →
      (backupFiles g p rp pp fp uuid env).err =
        some (.wrap "cannot write MANIFEST" e)) := by
  refine ⟨fun hm hw => ?_, fun e hm => ?_, fun e hm hw => ?_⟩
  · simp [backupFiles, hf, hc, ha, hm, hw]
  · simp [backupFiles, hf, hc, ha, hm]
  · simp [backupFiles, hf, hc, ha, hm, hw]

/-- C8 witness: with two clean copies, a clean manifest open/marshal/write and a
failing `Close`, `backupFiles` returns the Close error. -/
theorem manifest_close_error_composition_witness :
    (backupFiles gSample pSample posB emptyPosition emptyPosition "uuid-1"
      { bfEnvOk with closeErr := some eA }).err = some eA := by
  have h := manifest_close_error_composition gSample pSample posB emptyPosition
    emptyPosition "uuid-1" { bfEnvOk with closeErr := some eA }
    ["ibdata1", "db.opt"] rfl (by decide) rfl
  exact h.1 rfl rfl

/-- C3 counterexample: with buffer capacity 2, the subscriber's channel is
already closed (and the subscriber removed) after the SECOND state change, not
after the third: `register` pre-delivers the current state, which occupies one of
the two buffer slots, so the first change fills the buffer and the second one
would block and closes the channel. -/
theorem health_overflow_counterexample :
    (hsScenario 2 2).clients = []
    ∧ (hsScenario 2 2).closedChans = [⟨2, [0, 1], true⟩]
    ∧ (hsScenario 2 1).clients = [⟨2, [0, 1], false⟩]
    ∧ (hsScenario 2 1).closedChans = [] := by decide

/-- C3 amended: with buffer capacity 2 and five undrained state changes, the
subscriber's channel survives the first change (holding the registration snapshot
and change 1), is closed during the second change and removed from the client
set, and stays so through the fifth; every broadcast send is the non-blocking
`trySend`, which enqueues exactly when the buffer has space; and every channel a
broadcast drops out of the client set is closed. -/
theorem health_overflow_amended :
    (hsScenario 2 1).clients = [⟨2, [0, 1], false⟩]
    ∧ (∀ k, 2 ≤ k → k ≤ 5 → (hsScenario 2 k).clients = []
        ∧ (hsScenario 2 k).closedChans = [⟨2, [0, 1], true⟩])
    ∧ (∀ (ch : HChan) (m : Nat), (trySend ch m).2 = true ↔ ch.buf.length < ch.cap)
    ∧ (∀ (clients : List HChan) (m : Nat) (ch : HChan),
        ch ∈ (broadCastToClients clients m).2 → ch.closed = true) := by
  refine ⟨by decide, fun k h1 h2 => ?_, fun ch m => ?_, fun clients m ch hm => ?_⟩
  · interval_cases k <;> exact ⟨by decide, by decide⟩
  · unfold trySend
    by_cases h : ch.buf.length < ch.cap <;> simp [h]
  · induction clients with
    | nil => simp [broadCastToClients] at hm
    | cons c rest ih =>
      unfold broadCastToClients at hm
      by_cases hs : (trySend c m).2 <;> simp [hs] at hm
      · exact ih hm
      · rcases hm with hm | hm
        · rw [hm]
        · exact ih hm

/-- C3 amended witness: the five-change scenario at capacity 2 ends with no
subscriber in the client set and the channel closed holding messages 0 and 1. -/
theorem health_overflow_amended_witness :
    (hsScenario 2 5).clients = []
    ∧ (hsScenario 2 5).closedChans = [⟨2, [0, 1], true⟩] :=
  health_overflow_amended.2.1 5 (by decide) (by decide)

lemma restoreEffectiveManifest_fileEntries (bm : Manifest) :
    (restoreEffectiveManifest bm).fileEntries = bm.fileEntries := by
  unfold restoreEffectiveManifest; split <;> rfl

lemma feAt_restoreEffectiveManifest (bm : Manifest) (i : Nat) :
    feAt (restoreEffectiveManifest bm) i = feAt bm i := by
  unfold feAt
  rw [restoreEffectiveManifest_fileEntries]

lemma restoreFileTail_mismatch (fe : FileEntry) (env : RestoreFileEnv)
    (hcopy : env.copy = none) (hh : env.computedHash ≠ fe.hash) :
    restoreFileTail fe env = some (.vt .internal "hash mismatch") := by
  simp [restoreFileTail, hcopy, hh]

lemma restoreFile_mismatch (flag : String) (bm : Manifest) (fe : FileEntry)
    (env : RestoreFileEnv)
    (hr : env.readFile = .ok ()) (ho : env.openDest = .ok ())
    (hd : env.newDecompressor = none) (hcopy : env.copy = none)
    (hdec : bm.skipCompress = true ∨ ∃ d, chooseDecompressor flag bm = .ok d)
    (hh : env.computedHash ≠ fe.hash) :
    restoreFile flag bm fe env = some (.vt .internal "hash mismatch") := by
  have htail := restoreFileTail_mismatch fe env hcopy hh
  rcases hdec with hskip | ⟨d, hd2⟩
  · simp [restoreFile, hr, ho, hskip, htail, applyDeferClose]
  · by_cases hskip : bm.skipCompress
    · simp [restoreFile, hr, ho, hskip, htail, applyDeferClose]
    · simp [restoreFile, hr, ho, hskip, hd2, hd, htail, applyDeferClose]

lemma restoreFile_clean (flag : String) (bm : Manifest) (fe : FileEntry)
    (env : RestoreFileEnv) (hs : env.stepsOk)
    (hdec : bm.skipCompress = true ∨ ∃ d, chooseDecompressor flag bm = .ok d)
    (hh : env.computedHash = fe.hash) :
    restoreFile flag bm fe env = none := by
  obtain ⟨hr, ho, hd, hcopy, hfl, hbr, hdc, hdcc⟩ := hs
  have htail : restoreFileTail fe env = none := by
    simp [restoreFileTail, hcopy, hh, hfl, hbr]
  rcases hdec with hskip | ⟨d, hd2⟩
  · simp [restoreFile, hr, ho, hskip, htail, applyDeferClose, hdc]
  · by_cases hskip : bm.skipCompress
    · simp [restoreFile, hr, ho, hskip, htail, applyDeferClose, hdc]
    · simp [restoreFile, hr, ho, hskip, hd2, hd, htail, applyDeferClose, hdc, hdcc]

lemma restoreFilesTask_stuck (flag : String) (bm : Manifest)
    (env : RestoreFilesEnv)
    (hcancel : env.ctxCanceled = false)
    (hacq : ∀ i, env.acquire i = none) :
    ∀ (l : List Nat) (acc : List Err), acc ≠ [] →
      l.foldl (restoreFilesTask flag bm env) acc = acc := by
  intro l
  induction l with
  | nil => intro acc _; rfl
  | cons i rest ih =>
    intro acc h
    have hstep : restoreFilesTask flag bm env acc i = acc := by
      simp [restoreFilesTask, hacq i, hcancel, h]
    rw [List.foldl_cons, hstep]
    exact ih acc h

/-- C4: a hash mismatch while restoring any file makes `restoreFile` return an
internal-kind error, and the whole full restore aborts with that error (wrapped,
which preserves the vtrpc code) while deleting no partially restored file. -/
theorem restore_hash_mismatch_aborts
    (flag : String) (bm : Manifest) (env : RestoreFilesEnv) (j : Nat)
    (hincr : bm.incremental = false)
    (hcancel : env.ctxCanceled = false)
    (hacq : ∀ i, env.acquire i = none)
    (hsteps : ∀ i, (env.files i).stepsOk)
    (hdec : (restoreEffectiveManifest bm).skipCompress = true
      ∨ ∃ d, chooseDecompressor flag (restoreEffectiveManifest bm) = .ok d)
    (hj : j < bm.fileEntries.length)
    (hmatch : ∀ i, i < bm.fileEntries.length → i ≠ j →
      (env.files i).computedHash = (feAt bm i).hash)
    (hmis : (env.files j).computedHash ≠ (feAt bm j).hash) :
    restoreFile flag (restoreEffectiveManifest bm) (feAt bm j) (env.files j) =
      some (.vt .internal "hash mismatch")
    ∧ executeRestoreFullBackup flag none bm env =
        ⟨some (.wrap "failed to restore files"
          (.wrap "can't restore file" (.vt .internal "hash mismatch"))), []⟩
    ∧ (Err.wrap "failed to restore files"
        (.wrap "can't restore file" (.vt .internal "hash mismatch"))).code =
      Code.internal := by
  have hsj := hsteps j
  obtain ⟨hrj, hoj, hdj, hcopyj, _, _, _, _⟩ := hsj
  have hfile : restoreFile flag (restoreEffectiveManifest bm)
      (feAt bm j) (env.files j) = some (.vt .internal "hash mismatch") :=
    restoreFile_mismatch flag (restoreEffectiveManifest bm) _ _ hrj hoj hdj hcopyj
      hdec hmis
  refine ⟨hfile, ?_, rfl⟩
  have htaskj : restoreFilesTask flag (restoreEffectiveManifest bm) env [] j =
      [Err.wrap "can't restore file" (.vt .internal "hash mismatch")] := by
    simp [restoreFilesTask, hacq j, hcancel, feAt_restoreEffectiveManifest, hfile]
  have hprefix : ∀ m, m ≤ j →
      (List.range m).foldl (restoreFilesTask flag (restoreEffectiveManifest bm) env)
        [] = [] := by
    intro m
    induction m with
    | zero => intro _; rfl
    | succ m ih =>
      intro hm
      have hmj : m ≠ j := by omega
      have hmn : m < bm.fileEntries.length := by omega
      have hclean : restoreFile flag (restoreEffectiveManifest bm)
          (feAt (restoreEffectiveManifest bm) m) (env.files m) = none := by
        rw [feAt_restoreEffectiveManifest]
        exact restoreFile_clean flag (restoreEffectiveManifest bm) _ _ (hsteps m)
          hdec (hmatch m hmn hmj)
      rw [List.range_succ, List.foldl_append, ih (by omega)]
      simp [restoreFilesTask, hacq m, hcancel, hclean]
  have hfold : (List.range bm.fileEntries.length).foldl
      (restoreFilesTask flag (restoreEffectiveManifest bm) env) [] =
      [Err.wrap "can't restore file" (.vt .internal "hash mismatch")] := by
    obtain ⟨k, hk⟩ : ∃ k, bm.fileEntries.length = (j + 1) + k :=
      ⟨bm.fileEntries.length - (j + 1), by omega⟩
    rw [hk, List.range_add, List.foldl_append]
    have h1 : (List.range (j + 1)).foldl
        (restoreFilesTask flag (restoreEffectiveManifest bm) env) [] =
        [Err.wrap "can't restore file" (.vt .internal "hash mismatch")] := by
      rw [List.range_succ, List.foldl_append, hprefix j (le_refl j)]
      simpa using htaskj
    rw [h1]
    exact restoreFilesTask_stuck flag (restoreEffectiveManifest bm) env hcancel
      hacq _ _ (by simp)
  have hrf : (restoreFiles flag bm env).2 =
      some (Err.wrap "can't restore file" (.vt .internal "hash mismatch")) := by
    simp only [restoreFiles, hincr, restoreEffectiveManifest_fileEntries]
    simp [hfold]
  simp [executeRestoreFullBackup, hrf]

/-- C4 witness: a one-file full backup whose restored bytes hash to a different
value aborts the restore with the internal-kind error and deletes nothing. -/
theorem restore_hash_mismatch_aborts_witness :
    executeRestoreFullBackup "" none bmSample restoreEnvMismatch =
      ⟨some (.wrap "failed to restore files"
        (.wrap "can't restore file" (.vt .internal "hash mismatch"))), []⟩ := by
  have hlen : bmSample.fileEntries.length = 1 := rfl
  have h := restore_hash_mismatch_aborts "" bmSample restoreEnvMismatch 0
    rfl rfl (fun _ => rfl) (fun _ => ⟨rfl, rfl, rfl, rfl, rfl, rfl, rfl, rfl⟩)
    (Or.inr ⟨.builtin "pgzip", rfl⟩) (by rw [hlen]; omega)
    (fun i h1 h2 => absurd (by rw [hlen] at h1; omega : i = 0) h2)
    (by decide)
  exact h.2.1

/-- C6: an incremental backup whose effective from-position (caller-supplied or
auto-resolved) decodes to a position that is not a MySQL56 UUID-GTID position is
rejected with a FAILED_PRECONDITION error before `backupFiles` runs, so no file
is copied; a from-position string that does not decode at all is likewise
rejected before any copy, with the decoder's error wrapped. -/
theorem incremental_backup_rejects_non_mysql56
    (g : BackupGlobals) (p : BackupParms) (env : IncrEnv)
    (uuid : String) (purged : Position) (s : String)
    (hu : env.serverUUID = .ok uuid)
    (hp : env.gtidPurged = .ok purged) (hp56 : purged.isMysql56 = true)
    (hs : effectiveIncrementalFromPos p env = .ok s) :
    (∀ pos, env.decodePosition s = .ok pos → pos.isMysql56 = false →
      executeIncrementalBackup g p env = earlyIncrFail
        (.vt .failedPrecondition
          "incremental backup only supports MySQL GTID positions")
      ∧ (executeIncrementalBackup g p env).err.map Err.code =
          some Code.failedPrecondition
      ∧ (executeIncrementalBackup g p env).bf = none
      ∧ (executeIncrementalBackup g p env).usable = false)
    ∧ (∀ e, env.decodePosition s = .error e →
      executeIncrementalBackup g p env =
        earlyIncrFail (.wrap "cannot decode position in incremental backup" e)
      ∧ (executeIncrementalBackup g p env).bf = none) := by
  constructor
  · intro pos hd hflav
    have hrun : executeIncrementalBackup g p env = earlyIncrFail
        (.vt .failedPrecondition
          "incremental backup only supports MySQL GTID positions") := by
      simp [executeIncrementalBackup, hu, hp, hp56, hs, hd, hflav]
    exact ⟨hrun, by rw [hrun]; rfl, by rw [hrun]; rfl, by rw [hrun]; rfl⟩
  · intro e hd
    have hrun : executeIncrementalBackup g p env =
        earlyIncrFail (.wrap "cannot decode position in incremental backup" e) := by
      simp [executeIncrementalBackup, hu, hp, hp56, hs, hd]
    exact ⟨hrun, by rw [hrun]; rfl⟩

/-- C6 witness: a caller-supplied from-position that decodes as a MariaDB-flavor
position is rejected with FAILED_PRECONDITION and `backupFiles` never runs. -/
theorem incremental_backup_rejects_non_mysql56_witness :
    executeIncrementalBackup gSample pSampleIncr incrEnvWrongFlavor =
      earlyIncrFail (.vt .failedPrecondition
        "incremental backup only supports MySQL GTID positions")
    ∧ (executeIncrementalBackup gSample pSampleIncr incrEnvWrongFlavor).bf =
        none := by
  have h := (incremental_backup_rejects_non_mysql56 gSample pSampleIncr
    incrEnvWrongFlavor "uuid-1" posA
    "00010203-0405-0607-0809-0a0b0c0d0e0f:1-100" rfl rfl rfl rfl).1
    ⟨some (.mariadb, "00010203-0405-0607-0809-0a0b0c0d0e0f:1-100")⟩ rfl rfl
  exact ⟨h.1, h.2.2.1⟩

lemma backupFiles_manifest_fields (g : BackupGlobals) (p : BackupParms)
    (rp pp fp : Position) (uuid : String) (env : BackupFilesEnv) (m : Manifest)
    (hm : (backupFiles g p rp pp fp uuid env).manifest = some m) :
    m.position = rp ∧ m.purgedPosition = pp ∧ m.fromPosition = fp
    ∧ m.incremental = !fp.isZero ∧ m.serverUUID = uuid := by
  unfold backupFiles at hm
  cases hf : env.findFiles with
  | error e => rw [hf] at hm; simp at hm
  | ok fes =>
    rw [hf] at hm
    dsimp only at hm
    cases hc : copyPhaseErrors env fes.length with
    | cons e rest => rw [hc] at hm; simp at hm
    | nil =>
      rw [hc] at hm
      dsimp only at hm
      cases ha : env.addManifestFile with
      | error e => rw [ha] at hm; simp at hm
      | ok u =>
        rw [ha] at hm
        dsimp only at hm
        cases hmar : env.marshalErr with
        | some e => rw [hmar] at hm; simp at hm
        | none =>
          rw [hmar] at hm
          dsimp only at hm
          cases hw : env.writeErr with
          | some e => rw [hw] at hm; simp at hm
          | none =>
            rw [hw] at hm
            dsimp only at hm
            simp only [Option.some.injEq] at hm
            rw [← hm]
            simp [buildManifest]

/-- C7: on the success path of an incremental backup, `backupFiles` receives the
parse of the boundary GTID sets returned by `ChooseBinlogsForIncrementalBackup`
(the previous-GTIDs of the earliest chosen binlog, and the server position
computed when choosing), and any manifest it writes has `Position` equal to that
end position, `FromPosition` equal to that from-position, and `Incremental` true
exactly when `FromPosition` is non-empty. -/
theorem incremental_manifest_positions
    (g : BackupGlobals) (p : BackupParms) (env : IncrEnv)
    (uuid : String) (purged : Position) (s : String) (pos : Position)
    (logs bl : List String) (fromGTID toGTID : String) (fromPos toPos : Position)
    (hu : env.serverUUID = .ok uuid)
    (hp : env.gtidPurged = .ok purged) (hp56 : purged.isMysql56 = true)
    (hs : effectiveIncrementalFromPos p env = .ok s)
    (hd : env.decodePosition s = .ok pos) (h56 : pos.isMysql56 = true)
    (hfl : env.flushBinaryLogs = none)
    (hbl : env.getBinaryLogs = .ok bl)
    (hch : env.chooseBinlogs = .ok (logs, fromGTID, toGTID))
    (hpf : env.parsePosition fromGTID = .ok fromPos)
    (hpt : env.parsePosition toGTID = .ok toPos) :
    (executeIncrementalBackup g p env).bf =
      some (backupFiles g p toPos emptyPosition fromPos uuid env.bf)
    ∧ ∀ m, (backupFiles g p toPos emptyPosition fromPos uuid env.bf).manifest =
        some m →
      m.position = toPos ∧ m.fromPosition = fromPos
        ∧ m.incremental = !fromPos.isZero
        ∧ (m.incremental = true ↔ m.fromPosition.isZero = false) := by
  constructor
  · have hrun : ∀ r, r = backupFiles g p toPos emptyPosition fromPos uuid env.bf →
        (executeIncrementalBackup g p env).bf = some r := by
      intro r hr
      cases he : r.err with
      | some e =>
        simp [executeIncrementalBackup, incrFinish, hu, hp, hp56, hs, hd, h56,
          hfl, hbl, hch, hpf, hpt, ← hr, he]
      | none =>
        simp [executeIncrementalBackup, incrFinish, hu, hp, hp56, hs, hd, h56,
          hfl, hbl, hch, hpf, hpt, ← hr, he]
    exact hrun _ rfl
  · intro m hm
    obtain ⟨h1, _, h3, h4, _⟩ :=
      backupFiles_manifest_fields g p toPos emptyPosition fromPos uuid env.bf m hm
    refine ⟨h1, h3, h4, ?_⟩
    rw [h4, h3]
    cases fromPos.isZero <;> simp

/-- C7 witness: a concrete successful incremental backup writes a manifest whose
`Position` is the parsed end GTID set, whose `FromPosition` is the parsed
previous-GTIDs of the earliest chosen binlog, and whose `Incremental` flag is
true since that from-position is non-empty. -/
theorem incremental_manifest_positions_witness :
    (backupFiles gSample pSampleIncr
      ⟨some (.mysql56, "00010203-0405-0607-0809-0a0b0c0d0e0f:1-200")⟩
      emptyPosition
      ⟨some (.mysql56, "00010203-0405-0607-0809-0a0b0c0d0e0f:1-100")⟩
      "uuid-1" incrEnvOk.bf).manifest.map
        (fun m => (m.position, m.fromPosition, m.incremental)) =
      some (⟨some (.mysql56, "00010203-0405-0607-0809-0a0b0c0d0e0f:1-200")⟩,
        ⟨some (.mysql56, "00010203-0405-0607-0809-0a0b0c0d0e0f:1-100")⟩, true) := by
  have h := (incremental_manifest_positions gSample pSampleIncr incrEnvOk
    "uuid-1" posA "00010203-0405-0607-0809-0a0b0c0d0e0f:1-100"
    ⟨some (.mysql56, "00010203-0405-0607-0809-0a0b0c0d0e0f:1-100")⟩
    ["binlog.000002"] ["binlog.000001", "binlog.000002"]
    "00010203-0405-0607-0809-0a0b0c0d0e0f:1-100"
    "00010203-0405-0607-0809-0a0b0c0d0e0f:1-200"
    ⟨some (.mysql56, "00010203-0405-0607-0809-0a0b0c0d0e0f:1-100")⟩
    ⟨some (.mysql56, "00010203-0405-0607-0809-0a0b0c0d0e0f:1-200")⟩
    rfl rfl rfl rfl rfl rfl rfl rfl rfl rfl rfl).2
    (buildManifest gSample pSampleIncr
      ⟨some (.mysql56, "00010203-0405-0607-0809-0a0b0c0d0e0f:1-200")⟩
      emptyPosition
      ⟨some (.mysql56, "00010203-0405-0607-0809-0a0b0c0d0e0f:1-100")⟩
      "uuid-1" ["ibdata1", "db.opt"] incrEnvOk.bf) rfl
  simp only [Option.map]
  rw [show (backupFiles gSample pSampleIncr
      ⟨some (.mysql56, "00010203-0405-0607-0809-0a0b0c0d0e0f:1-200")⟩
      emptyPosition
      ⟨some (.mysql56, "00010203-0405-0607-0809-0a0b0c0d0e0f:1-100")⟩
      "uuid-1" incrEnvOk.bf).manifest = some (buildManifest gSample pSampleIncr
      ⟨some (.mysql56, "00010203-0405-0607-0809-0a0b0c0d0e0f:1-200")⟩
      emptyPosition
      ⟨some (.mysql56, "00010203-0405-0607-0809-0a0b0c0d0e0f:1-100")⟩
      "uuid-1" ["ibdata1", "db.opt"] incrEnvOk.bf) from rfl]
  simp [h.1, h.2.1, h.2.2.1, Position.isZero]

lemma incrFinish_usable (r : BFResult) :
    (incrFinish r).usable = true ↔ (incrFinish r).backupErr = some none := by
  cases h : r.err <;> simp [incrFinish, h]

lemma fullBackupFinish_base (g : BackupGlobals) (p : BackupParms)
    (pre : PreludeInfo) (env : FullEnv) :
    (fullBackupFinish g p pre env).shutdownSucceeded = true
    ∧ (fullBackupFinish g p pre env).startAttempted = true
    ∧ (fullBackupFinish g p pre env).startUsedBackgroundCtx = true
    ∧ (fullBackupFinish g p pre env).backupErr =
        some (backupFiles g p pre.replicationPosition pre.gtidPurged emptyPosition
          pre.serverUUID env.bf).err
    ∧ (fullBackupFinish g p pre env).usable =
        (backupFiles g p pre.replicationPosition pre.gtidPurged emptyPosition
          pre.serverUUID env.bf).err.isNone := by
  unfold fullBackupFinish
  dsimp only
  (repeat' split) <;> exact ⟨rfl, rfl, rfl, rfl, rfl⟩

lemma fullBackupFinish_start_some (g : BackupGlobals) (p : BackupParms)
    (pre : PreludeInfo) (env : FullEnv) (e : Err) (hstart : env.start = some e) :
    (fullBackupFinish g p pre env).err = some (.wrap "can't restart mysqld" e)
    ∧ (fullBackupFinish g p pre env).mysqlRunning = false := by
  unfold fullBackupFinish
  dsimp only
  rw [hstart]
  dsimp only
  exact ⟨rfl, rfl⟩

lemma fullBackupFinish_start_none (g : BackupGlobals) (p : BackupParms)
    (pre : PreludeInfo) (env : FullEnv) (hstart : env.start = none) :
    (fullBackupFinish g p pre env).mysqlRunning = true
    ∧ (fullBackupFinish g p pre env).superReadOnlyRestoreAttempted = true := by
  unfold fullBackupFinish
  dsimp only
  rw [hstart]
  dsimp only
  (repeat' split) <;> exact ⟨rfl, rfl⟩

lemma fullBackupFinish_semi (g : BackupGlobals) (p : BackupParms)
    (pre : PreludeInfo) (env : FullEnv) (hstart : env.start = none)
    (hsro : env.setSuperReadOnlyRestore = none) :
    (fullBackupFinish g p pre env).semiSyncRestoreAttempted =
      (env.semiSyncSource || env.semiSyncReplica) := by
  unfold fullBackupFinish
  dsimp only
  rw [hstart, hsro]
  dsimp only
  (repeat' split) <;> rfl

lemma fullBackupFinish_all_ok (g : BackupGlobals) (p : BackupParms)
    (pre : PreludeInfo) (env : FullEnv) (hstart : env.start = none)
    (hsro : env.setSuperReadOnlyRestore = none)
    (hsemi : (if env.semiSyncSource || env.semiSyncReplica then env.setSemiSync
      else none) = none)
    (hrr : fullBackupReplicaRestart pre env = none) :
    (fullBackupFinish g p pre env).err =
      (backupFiles g p pre.replicationPosition pre.gtidPurged emptyPosition
        pre.serverUUID env.bf).err := by
  unfold fullBackupFinish
  dsimp only
  rw [hstart, hsro, hsemi, hrr]

lemma fullBackupFinish_err_none_running (g : BackupGlobals) (p : BackupParms)
    (pre : PreludeInfo) (env : FullEnv)
    (he : (fullBackupFinish g p pre env).err = none) :
    (fullBackupFinish g p pre env).mysqlRunning = true := by
  cases hstart : env.start with
  | some e =>
    rw [(fullBackupFinish_start_some g p pre env e hstart).1] at he
    cases he
  | none => exact (fullBackupFinish_start_none g p pre env hstart).1

/-- C1: in `backupFiles`, the manifest write appears in the trace only after
every file-copy task has finished and only when the handle recorded no errors;
`backupFiles` returns nil exactly when the handle recorded no errors AND the
manifest was written and its sink closed cleanly; and both `executeFullBackup`
and `executeIncrementalBackup` report the backup usable exactly when
`backupFiles` ran and returned nil. -/
theorem backup_manifest_last_and_usable
    (g : BackupGlobals) (p : BackupParms)
    (rp pp fp : Position) (uuid : String) (env : BackupFilesEnv) :
    (BFEvent.manifestWrite ∈ (backupFiles g p rp pp fp uuid env).trace →
      (backupFiles g p rp pp fp uuid env).handleErrors = []
      ∧ ∃ n, (backupFiles g p rp pp fp uuid env).trace =
          (List.range n).map BFEvent.taskDone ++ [BFEvent.manifestWrite])
    ∧ ((backupFiles g p rp pp fp uuid env).err = none ↔
        (backupFiles g p rp pp fp uuid env).handleErrors = []
        ∧ (backupFiles g p rp pp fp uuid env).manifest.isSome = true
        ∧ env.closeErr = none)
    ∧ (∀ fenv : FullEnv, (executeFullBackup g p fenv).usable = true ↔
        (executeFullBackup g p fenv).backupErr = some none)
    ∧ (∀ ienv : IncrEnv, (executeIncrementalBackup g p ienv).usable = true ↔
        (executeIncrementalBackup g p ienv).backupErr = some none) := by
  have hAB : (BFEvent.manifestWrite ∈ (backupFiles g p rp pp fp uuid env).trace →
      (backupFiles g p rp pp fp uuid env).handleErrors = []
      ∧ ∃ n, (backupFiles g p rp pp fp uuid env).trace =
          (List.range n).map BFEvent.taskDone ++ [BFEvent.manifestWrite])
      ∧ ((backupFiles g p rp pp fp uuid env).err = none ↔
        (backupFiles g p rp pp fp uuid env).handleErrors = []
        ∧ (backupFiles g p rp pp fp uuid env).manifest.isSome = true
        ∧ env.closeErr = none) := by
    unfold backupFiles
    cases hf : env.findFiles with
    | error e => constructor <;> simp
    | ok fes =>
      dsimp only
      cases hc : copyPhaseErrors env fes.length with
      | cons e rest => constructor <;> simp
      | nil =>
        dsimp only
        cases ha : env.addManifestFile with
        | error e => constructor <;> simp
        | ok u =>
          dsimp only
          cases hmar : env.marshalErr with
          | some e => constructor <;> simp
          | none =>
            dsimp only
            cases hw : env.writeErr with
            | some e => constructor <;> simp
            | none =>
              dsimp only
              constructor
              · intro _
                exact ⟨rfl, fes.length, rfl⟩
              · simp
  refine ⟨hAB.1, hAB.2, fun fenv => ?_, fun ienv => ?_⟩
  · unfold executeFullBackup
    cases hpre : fullBackupPrelude fenv with
    | error e => simp [earlyFullFail]
    | ok pre =>
      cases hsd : fenv.shutdown with
      | some e => simp [earlyFullFail]
      | none =>
        obtain ⟨-, -, -, h4, h5⟩ := fullBackupFinish_base g p pre fenv
        rw [h4, h5]
        cases (backupFiles g p pre.replicationPosition pre.gtidPurged
          emptyPosition pre.serverUUID fenv.bf).err <;> simp
  · unfold executeIncrementalBackup
    (repeat' split) <;> first
      | simp [earlyIncrFail]
      | exact incrFinish_usable _

/-- C1 witness: a clean two-file backup writes the manifest after both copy
tasks with no handle errors, and a clean full backup is reported usable. -/
theorem backup_manifest_last_and_usable_witness :
    (backupFiles gSample pSample posB emptyPosition emptyPosition "uuid-1"
      bfEnvOk).handleErrors = []
    ∧ (∃ n, (backupFiles gSample pSample posB emptyPosition emptyPosition
        "uuid-1" bfEnvOk).trace =
        (List.range n).map BFEvent.taskDone ++ [BFEvent.manifestWrite])
    ∧ (executeFullBackup gSample pSample fullEnvOk).usable = true := by
  have h := backup_manifest_last_and_usable gSample pSample posB emptyPosition
    emptyPosition "uuid-1" bfEnvOk
  have hA := h.1 (by decide)
  exact ⟨hA.1, hA.2, (h.2.2.1 fullEnvOk).2 (by decide)⟩

/-- C2 counterexample: when `backupFiles` fails AND the mysqld restart also
fails, the reported error is the restart error, not the first failure (the
backup error is dropped), and mysqld is left shut down — refuting both the
"first failure is the one reported" composition and the "after any error MySQL
is either running or was never shut down" consequence. -/
theorem full_backup_recovery_counterexample :
    (executeFullBackup gSample pSample fullEnvBackupAndStartFail).backupErr =
      some (some (.wrap "can't find files to backup" eA))
    ∧ (executeFullBackup gSample pSample fullEnvBackupAndStartFail).err =
        some (.wrap "can't restart mysqld" eB)
    ∧ (executeFullBackup gSample pSample fullEnvBackupAndStartFail).err ≠
        some (.wrap "can't find files to backup" eA)
    ∧ (executeFullBackup gSample pSample
        fullEnvBackupAndStartFail).shutdownSucceeded = true
    ∧ (executeFullBackup gSample pSample
        fullEnvBackupAndStartFail).mysqlRunning = false := by
  refine ⟨rfl, rfl, ?_, rfl, rfl⟩
  intro h
  rw [show (executeFullBackup gSample pSample fullEnvBackupAndStartFail).err =
    some (.wrap "can't restart mysqld" eB) from rfl] at h
  simp at h

/-- C2 amended: after a successful shutdown the restart is always attempted,
with a fresh background context, and when it succeeds the super-read-only
restore (and, when applicable, the semi-sync restore) is executed even if the
file-copy step failed; however a failing recovery step's error REPLACES the
backup error (the recovery error, not the first failure, is reported), and only
when every recovery step succeeds is the backup error returned.  After a nil
return mysqld is running; after an error mysqld is running, or was never shut
down, or (only when the restart itself failed) left down. -/
theorem full_backup_recovery_amended
    (g : BackupGlobals) (p : BackupParms) (env : FullEnv) :
    ((executeFullBackup g p env).shutdownSucceeded = true →
      (executeFullBackup g p env).startAttempted = true
      ∧ (executeFullBackup g p env).startUsedBackgroundCtx = true)
    ∧ ((executeFullBackup g p env).shutdownSucceeded = true → env.start = none →
        (executeFullBackup g p env).superReadOnlyRestoreAttempted = true
        ∧ (env.setSuperReadOnlyRestore = none →
            (executeFullBackup g p env).semiSyncRestoreAttempted =
              (env.semiSyncSource || env.semiSyncReplica)))
    ∧ (∀ be e, (executeFullBackup g p env).backupErr = some (some be) →
        env.start = some e →
        (executeFullBackup g p env).err = some (.wrap "can't restart mysqld" e))
    ∧ (∀ pre, fullBackupPrelude env = .ok pre → env.shutdown = none →
        env.start = none → env.setSuperReadOnlyRestore = none →
        (if env.semiSyncSource || env.semiSyncReplica then env.setSemiSync
          else none) = none →
        fullBackupReplicaRestart pre env = none →
        (executeFullBackup g p env).err =
          (backupFiles g p pre.replicationPosition pre.gtidPurged emptyPosition
            pre.serverUUID env.bf).err)
    ∧ ((executeFullBackup g p env).err = none →
        (executeFullBackup g p env).mysqlRunning = true)
    ∧ (∀ e, (executeFullBackup g p env).err = some e →
        (executeFullBackup g p env).mysqlRunning = true
        ∨ (executeFullBackup g p env).shutdownSucceeded = false
        ∨ env.start ≠ none) := by
  cases hpre : fullBackupPrelude env with
  | error e0 =>
    have hres : executeFullBackup g p env = earlyFullFail e0 := by
      unfold executeFullBackup; rw [hpre]
    rw [hres]
    refine ⟨?_, ?_, ?_, ?_, ?_, ?_⟩
    · intro h; cases h
    · intro h; cases h
    · intro be e hbe; simp [earlyFullFail] at hbe
    · intro pre hp'; simp at hp'
    · intro h; simp [earlyFullFail] at h
    · intro e _; exact Or.inr (Or.inl rfl)
  | ok pre =>
    cases hsd : env.shutdown with
    | some e0 =>
      have hres : executeFullBackup g p env =
          earlyFullFail (.wrap "can't shutdown mysqld" e0) := by
        unfold executeFullBackup; rw [hpre, hsd]
      rw [hres]
      refine ⟨?_, ?_, ?_, ?_, ?_, ?_⟩
      · intro h; cases h
      · intro h; cases h
      · intro be e hbe; simp [earlyFullFail] at hbe
      · intro pre' _ hsd'; simp at hsd'
      · intro h; simp [earlyFullFail] at h
      · intro e _; exact Or.inr (Or.inl rfl)
    | none =>
      have hres : executeFullBackup g p env = fullBackupFinish g p pre env := by
        unfold executeFullBackup; rw [hpre, hsd]
      rw [hres]
      obtain ⟨hb1, hb2, hb3, hb4, hb5⟩ := fullBackupFinish_base g p pre env
      refine ⟨fun _ => ⟨hb2, hb3⟩, ?_, ?_, ?_, ?_, ?_⟩
      · intro _ hstart
        refine ⟨(fullBackupFinish_start_none g p pre env hstart).2, fun hsro => ?_⟩
        exact fullBackupFinish_semi g p pre env hstart hsro
      · intro be e _ hstart
        exact (fullBackupFinish_start_some g p pre env e hstart).1
      · intro pre' hp' _ hstart hsro hsemi hrr
        cases hp'
        exact fullBackupFinish_all_ok g p pre env hstart hsro hsemi hrr
      · exact fullBackupFinish_err_none_running g p pre env
      · intro e _
        cases hstart : env.start with
        | some e1 => exact Or.inr (Or.inr (by simp))
        | none =>
          exact Or.inl (fullBackupFinish_start_none g p pre env hstart).1

/-- C2 amended witness: in a clean full backup the restart is attempted with the
background context, and with every recovery step succeeding the returned error
is exactly the `backupFiles` error. -/
theorem full_backup_recovery_amended_witness :
    (executeFullBackup gSample pSample fullEnvOk).startAttempted = true
    ∧ (executeFullBackup gSample pSample fullEnvOk).startUsedBackgroundCtx = true
    ∧ (executeFullBackup gSample pSample fullEnvOk).err =
        (backupFiles gSample pSample posA posA emptyPosition "uuid-1"
          fullEnvOk.bf).err := by
  have h := full_backup_recovery_amended gSample pSample fullEnvOk
  have h1 := h.1 rfl
  refine ⟨h1.1, h1.2, ?_⟩
  exact h.2.2.2.1 ⟨false, true, true, posA, posA, "uuid-1"⟩ rfl rfl rfl rfl rfl rfl

end Vitess
